import Mathlib

/-
Verification of the databricks terraform provider's configuration<->object
mapping engine and multi-strategy authenticator.

The entity and conversion definitions below are shallow embeddings of the Go
source, primarily `sqlanalytics/resource_query.go` (QueryEntity, its schedule
and parameter variants, and the toAPIObject / fromAPIObject conversions) and
the azure authentication layer.  Go `int` is embedded as `Int` (no arithmetic
here approaches 2^63, so wrap-around is not in play), Go strings as `String`,
nil-able pointers as `Option`, and the one runtime panic reachable in the
conversion code (indexing `Values[0]`) as `Option.none`.
-/

namespace Databricks

/-! ## SQL analytics query entity: schedule variants

Embeds `QueryEntity.Schedule` and its three variant structs, together with the
wire-format `api.QuerySchedule` (fields `Interval`, `Time`, `DayOfWeek`,
`Until` as used by the conversions). -/

/-- `QueryScheduleContinuous`: `interval_seconds` and optional `until_date`
(zero value `""` means unset, mirroring the Go string zero value). -/
structure QueryScheduleContinuous where
  intervalSeconds : Int
  untilDate : String
deriving DecidableEq, Repr

/-- `QueryScheduleDaily`: `interval_days`, `time_of_day`, optional `until_date`. -/
structure QueryScheduleDaily where
  intervalDays : Int
  timeOfDay : String
  untilDate : String
deriving DecidableEq, Repr

/-- `QueryScheduleWeekly`: `interval_weeks`, `day_of_week`, `time_of_day`,
optional `until_date`. -/
structure QueryScheduleWeekly where
  intervalWeeks : Int
  dayOfWeek : String
  timeOfDay : String
  untilDate : String
deriving DecidableEq, Repr

/-- `QuerySchedule`: at most one of the three variant pointers is non-nil
(enforced separately by the schema ConflictsWith declarations). -/
structure QuerySchedule where
  continuous : Option QueryScheduleContinuous
  daily : Option QueryScheduleDaily
  weekly : Option QueryScheduleWeekly
deriving DecidableEq, Repr

/-- Wire-format `api.QuerySchedule`: a single interval in seconds plus
optional day-of-week, time and until pointers. -/
structure ApiQuerySchedule where
  interval : Int
  dayOfWeek : Option String
  time : Option String
  Until : Option String
deriving DecidableEq, Repr

/-- `const secondsInDay = 24 * 60 * 60` from the source. -/
def secondsInDay : Int := 24 * 60 * 60

/-- `const secondsInWeek = 7 * secondsInDay` from the source. -/
def secondsInWeek : Int := 7 * secondsInDay

/-- Schedule fragment of `QueryEntity.toAPIObject`: the three `if` blocks run
in sequence (continuous, then daily, then weekly), each overwriting
`aq.Schedule`; `Until` is set only when `UntilDate != ""`. -/
def scheduleToAPIObject (s : QuerySchedule) : Option ApiQuerySchedule :=
  let r0 : Option ApiQuerySchedule := none
  let r1 := match s.continuous with
    | none => r0
    | some sp => some { interval := sp.intervalSeconds, dayOfWeek := none, time := none,
                        Until := if sp.untilDate = "" then none else some sp.untilDate }
  let r2 := match s.daily with
    | none => r1
    | some sp => some { interval := sp.intervalDays * secondsInDay, dayOfWeek := none,
                        time := some sp.timeOfDay,
                        Until := if sp.untilDate = "" then none else some sp.untilDate }
  let r3 := match s.weekly with
    | none => r2
    | some sp => some { interval := sp.intervalWeeks * secondsInWeek,
                        dayOfWeek := some sp.dayOfWeek, time := some sp.timeOfDay,
                        Until := if sp.untilDate = "" then none else some sp.untilDate }
  r3

/-- Schedule fragment of `QueryEntity.fromAPIObject`: classifies the wire
interval by divisibility — a multiple of a week is decoded as weekly, else a
multiple of a day as daily, else as continuous.  Nil pointers on the wire
leave the corresponding entity string at its zero value `""`. -/
def scheduleFromAPIObject (s : ApiQuerySchedule) : QuerySchedule :=
  if s.interval % secondsInWeek = 0 then
    { continuous := none, daily := none,
      weekly := some { intervalWeeks := s.interval / secondsInWeek,
                       dayOfWeek := s.dayOfWeek.getD "", timeOfDay := s.time.getD "",
                       untilDate := s.Until.getD "" } }
  else if s.interval % secondsInDay = 0 then
    { continuous := none, weekly := none,
      daily := some { intervalDays := s.interval / secondsInDay,
                      timeOfDay := s.time.getD "", untilDate := s.Until.getD "" } }
  else
    { daily := none, weekly := none,
      continuous := some { intervalSeconds := s.interval, untilDate := s.Until.getD "" } }

/-- Round trip of a schedule through the wire format (`none` when no variant
was set, since `toAPIObject` then leaves `aq.Schedule` nil). -/
def scheduleRoundTrip (s : QuerySchedule) : Option QuerySchedule :=
  (scheduleToAPIObject s).map scheduleFromAPIObject

example : scheduleRoundTrip
    { continuous := none, daily := none,
      weekly := some { intervalWeeks := 2, dayOfWeek := "Monday", timeOfDay := "09:00", untilDate := "" } } =
    some { continuous := none, daily := none,
           weekly := some { intervalWeeks := 2, dayOfWeek := "Monday", timeOfDay := "09:00", untilDate := "" } } := by
  decide

/-- C1 (counterexample): a continuous schedule with a non-zero interval of
604800 seconds does not round-trip — `fromAPIObject` reclassifies it as a
weekly schedule of one week, so the variant changes. -/
theorem C1_schedule_roundTrip_counterexample :
    scheduleRoundTrip { continuous := some { intervalSeconds := 604800, untilDate := "" },
                        daily := none, weekly := none } ≠
      some { continuous := some { intervalSeconds := 604800, untilDate := "" },
             daily := none, weekly := none } ∧
    scheduleRoundTrip { continuous := some { intervalSeconds := 604800, untilDate := "" },
                        daily := none, weekly := none } =
      some { continuous := none, daily := none,
             weekly := some { intervalWeeks := 1, dayOfWeek := "", timeOfDay := "", untilDate := "" } } := by
  constructor
  · decide
  · decide

/-- C1 (amended): the round trip through the wire format reconstructs the
schedule exactly on every mapped field, except where the interval collides
with a coarser granularity: a weekly schedule always round-trips; a daily
schedule round-trips precisely when its interval in days is not a multiple
of 7; a continuous schedule round-trips precisely when its interval in
seconds is not a multiple of 86400 (one day).  In the excluded cases the
inverse conversion reclassifies the schedule, as the counterexample shows. -/
theorem C1_schedule_roundTrip_amended (s : QuerySchedule) :
    (∀ w, s.weekly = some w →
        scheduleRoundTrip s = some { continuous := none, daily := none, weekly := some w }) ∧
    (∀ d, s.weekly = none → s.daily = some d → d.intervalDays % 7 ≠ 0 →
        scheduleRoundTrip s = some { continuous := none, daily := some d, weekly := none }) ∧
    (∀ c, s.weekly = none → s.daily = none → s.continuous = some c →
        c.intervalSeconds % secondsInDay ≠ 0 →
        scheduleRoundTrip s = some { continuous := some c, daily := none, weekly := none }) := by
  refine ⟨?_, ?_, ?_⟩
  · intro w hw
    obtain ⟨iw, dw, tw, uw⟩ := w
    by_cases hu : uw = "" <;>
      simp [scheduleRoundTrip, scheduleToAPIObject, scheduleFromAPIObject,
            hw, hu, secondsInWeek, secondsInDay]
  · intro d hw hd h7
    obtain ⟨nd, td, ud⟩ := d
    simp only at h7
    have h0 : ¬ (604800 : Int) ∣ nd * 86400 := by omega
    by_cases hu : ud = "" <;>
      simp [scheduleRoundTrip, scheduleToAPIObject, scheduleFromAPIObject,
            hw, hd, hu, h0, secondsInWeek, secondsInDay]
  · intro c hw hd hc hday
    obtain ⟨nc, uc⟩ := c
    simp only [secondsInDay] at hday
    have h0 : ¬ (604800 : Int) ∣ nc := by omega
    have h1 : ¬ (86400 : Int) ∣ nc := by omega
    by_cases hu : uc = "" <;>
      simp [scheduleRoundTrip, scheduleToAPIObject, scheduleFromAPIObject,
            hw, hd, hc, hu, h0, h1, secondsInWeek, secondsInDay]

/-- C1 (witness): the amended round-trip theorem applied to concrete weekly,
daily and continuous schedules whose intervals avoid the collision cases. -/
theorem C1_schedule_roundTrip_witness :
    scheduleRoundTrip
      { continuous := none, daily := none,
        weekly := some { intervalWeeks := 2, dayOfWeek := "Monday", timeOfDay := "09:00", untilDate := "" } } =
      some { continuous := none, daily := none,
             weekly := some { intervalWeeks := 2, dayOfWeek := "Monday", timeOfDay := "09:00", untilDate := "" } } ∧
    scheduleRoundTrip
      { continuous := none, daily := some { intervalDays := 3, timeOfDay := "08:00", untilDate := "2030-01-01" },
        weekly := none } =
      some { continuous := none, daily := some { intervalDays := 3, timeOfDay := "08:00", untilDate := "2030-01-01" },
             weekly := none } ∧
    scheduleRoundTrip
      { continuous := some { intervalSeconds := 900, untilDate := "" }, daily := none, weekly := none } =
      some { continuous := some { intervalSeconds := 900, untilDate := "" }, daily := none, weekly := none } :=
  ⟨(C1_schedule_roundTrip_amended _).1 _ rfl,
   (C1_schedule_roundTrip_amended _).2.1 _ rfl rfl (by decide),
   (C1_schedule_roundTrip_amended _).2.2 _ rfl rfl rfl (by decide)⟩

/-! ## SQL analytics query entity: parameter variants

Embeds the `QueryParameter` family from `sqlanalytics/resource_query.go` and
the wire-format parameter union (`api.QueryParameterText` etc., a Go
`interface{}` discriminated by a type switch), together with the parameter
fragment of `QueryEntity.fromAPIObject`. -/

/-- `QueryParameterAllowMultiple`: separator options for multi-valued
parameters.  Source field names are capitalized forms of the Lean ones. -/
structure QueryParameterAllowMultiple where
  pfx : String
  sfx : String
  separator : String
deriving DecidableEq, Repr

/-- Wire-format `api.QueryParameterMultipleValuesOptions` (same fields). -/
structure QueryParameterMultipleValuesOptions where
  pfx : String
  sfx : String
  separator : String
deriving DecidableEq, Repr

/-- `newQueryParameterAllowMultiple`: nil maps to nil, otherwise a field-wise
copy from the wire struct. -/
def newQueryParameterAllowMultiple (aq : Option QueryParameterMultipleValuesOptions) :
    Option QueryParameterAllowMultiple :=
  match aq with
  | none => none
  | some a => some { pfx := a.pfx, sfx := a.sfx, separator := a.separator }

/-- `QueryParameterText` (entity side). -/
structure QueryParameterText where
  value : String
deriving DecidableEq, Repr

/-- `QueryParameterNumber` (entity side); the value is a Go float64. -/
structure QueryParameterNumber where
  value : Float
deriving Repr

/-- `QueryParameterEnum` (entity side): `value` iff `multiple == nil`,
`values` iff `multiple != nil`; unused side stays at its zero value. -/
structure QueryParameterEnum where
  value : String
  values : List String
  options : List String
  multiple : Option QueryParameterAllowMultiple
deriving DecidableEq, Repr

/-- `QueryParameterQuery` (entity side): same single/multi convention. -/
structure QueryParameterQuery where
  value : String
  values : List String
  queryID : String
  multiple : Option QueryParameterAllowMultiple
deriving DecidableEq, Repr

/-- `QueryParameterDateLike` (entity side, shared by date variants). -/
structure QueryParameterDateLike where
  value : String
deriving DecidableEq, Repr

/-- `QueryParameterDateRangeLike` (entity side, shared by range variants). -/
structure QueryParameterDateRangeLike where
  value : String
deriving DecidableEq, Repr

/-- `QueryParameter` (entity side): name, title, and a family of optional
variant pointers of which at most one is non-nil. -/
structure QueryParameter where
  name : String := ""
  title : String := ""
  text : Option QueryParameterText := none
  number : Option QueryParameterNumber := none
  enum : Option QueryParameterEnum := none
  query : Option QueryParameterQuery := none
  date : Option QueryParameterDateLike := none
  dateTime : Option QueryParameterDateLike := none
  dateTimeSec : Option QueryParameterDateLike := none
  dateRange : Option QueryParameterDateRangeLike := none
  dateTimeRange : Option QueryParameterDateRangeLike := none
  dateTimeSecRange : Option QueryParameterDateRangeLike := none
deriving Repr

/-- Wire-format parameter union: the concrete structs behind the Go
`interface{}` in `api.QueryOptions.Parameters`, discriminated in
`fromAPIObject` by a type switch.  Each carries the embedded
`api.QueryParameter` header (name, title).  Enum options travel as one
newline-joined string on the wire. -/
inductive ApiQueryParameter where
  | text (name title value : String)
  | number (name title : String) (value : Float)
  | enum (name title : String) (values : List String) (options : String)
      (multi : Option QueryParameterMultipleValuesOptions)
  | query (name title : String) (values : List String) (queryID : String)
      (multi : Option QueryParameterMultipleValuesOptions)
  | date (name title value : String)
  | dateTime (name title value : String)
  | dateTimeSec (name title value : String)
  | dateRange (name title value : String)
  | dateTimeRange (name title value : String)
  | dateTimeSecRange (name title value : String)
deriving Repr

/-- `strings.Split(s, "\n")` as used for the enum options wire encoding,
specialized to the one separator occurring in the source: splits on every
newline, keeping empty segments (so the empty string yields `[""]`). -/
def splitNewlines (s : String) : List String :=
  splitAux s.data []
where
  splitAux : List Char → List Char → List String
  | [], acc => [String.mk acc.reverse]
  | ch :: rest, acc =>
    if ch = '\n' then String.mk acc.reverse :: splitAux rest []
    else splitAux rest (ch :: acc)

/-- One iteration of the parameter loop in `QueryEntity.fromAPIObject`.  For
enum and query parameters with `Multi == nil` the source reads `Values[0]`
unguarded; the empty-`Values` case is a Go index-out-of-range panic, embedded
here as `none`.  All other branches are total. -/
def fromAPIParameter (ap : ApiQueryParameter) : Option QueryParameter :=
  match ap with
  | .text n t v => some { name := n, title := t, text := some { value := v } }
  | .number n t v => some { name := n, title := t, number := some { value := v } }
  | .enum n t values options multi =>
    match newQueryParameterAllowMultiple multi with
    | some m =>
      some { name := n, title := t,
             enum := some { value := "", values := values,
                            options := splitNewlines options, multiple := some m } }
    | none =>
      match values with
      | [] => none
      | v :: _ =>
        some { name := n, title := t,
               enum := some { value := v, values := [],
                              options := splitNewlines options, multiple := none } }
  | .query n t values queryID multi =>
    match newQueryParameterAllowMultiple multi with
    | some m =>
      some { name := n, title := t,
             query := some { value := "", values := values, queryID := queryID,
                             multiple := some m } }
    | none =>
      match values with
      | [] => none
      | v :: _ =>
        some { name := n, title := t,
               query := some { value := v, values := [], queryID := queryID,
                               multiple := none } }
  | .date n t v => some { name := n, title := t, date := some { value := v } }
  | .dateTime n t v => some { name := n, title := t, dateTime := some { value := v } }
  | .dateTimeSec n t v => some { name := n, title := t, dateTimeSec := some { value := v } }
  | .dateRange n t v => some { name := n, title := t, dateRange := some { value := v } }
  | .dateTimeRange n t v => some { name := n, title := t, dateTimeRange := some { value := v } }
  | .dateTimeSecRange n t v =>
    some { name := n, title := t, dateTimeSecRange := some { value := v } }

/-- The parameter loop of `fromAPIObject`: each converted parameter is
appended in order; a panic anywhere aborts the whole conversion. -/
def fromAPIParameters : List ApiQueryParameter → Option (List QueryParameter)
  | [] => some []
  | p :: ps => do
    let q ← fromAPIParameter p
    let qs ← fromAPIParameters ps
    pure (q :: qs)

/-- The implicit precondition of C10: enum-kind and query-kind wire
parameters with `Multi == nil` must carry a non-empty `Values` list.  All
other parameter kinds impose no condition. -/
def singleValuedNonEmpty : ApiQueryParameter → Bool
  | .enum _ _ values _ none => !values.isEmpty
  | .query _ _ values _ none => !values.isEmpty
  | _ => true

/-- C10: whenever every enum-kind and query-kind parameter with `Multi == nil`
carries a non-empty `Values` list, the parameter conversion in
`fromAPIObject` is total (the `Values[0]` access never goes out of bounds),
and on such parameters the single `Value` field is set to `Values[0]`. -/
theorem C10_fromAPIObject_singleValued (ps : List ApiQueryParameter)
    (h : ∀ p ∈ ps, singleValuedNonEmpty p = true) :
    (∃ qs, fromAPIParameters ps = some qs) ∧
    (∀ n t v vs options,
        fromAPIParameter (.enum n t (v :: vs) options none) =
          some { name := n, title := t,
                 enum := some { value := v, values := [],
                                options := splitNewlines options, multiple := none } }) ∧
    (∀ n t v vs queryID,
        fromAPIParameter (.query n t (v :: vs) queryID none) =
          some { name := n, title := t,
                 query := some { value := v, values := [], queryID := queryID,
                                 multiple := none } }) := by
  refine ⟨?_, fun _ _ _ _ _ => rfl, fun _ _ _ _ _ => rfl⟩
  induction ps with
  | nil => exact ⟨[], rfl⟩
  | cons p ps ih =>
    obtain ⟨qs, hqs⟩ := ih (fun q hq => h q (List.mem_cons_of_mem p hq))
    have hp : ∃ q, fromAPIParameter p = some q := by
      have hone := h p (List.mem_cons_self p ps)
      cases p with
      | enum n t values options multi =>
        cases multi with
        | none =>
          cases values with
          | nil => simp [singleValuedNonEmpty] at hone
          | cons v vs => exact ⟨_, rfl⟩
        | some m => exact ⟨_, rfl⟩
      | query n t values queryID multi =>
        cases multi with
        | none =>
          cases values with
          | nil => simp [singleValuedNonEmpty] at hone
          | cons v vs => exact ⟨_, rfl⟩
        | some m => exact ⟨_, rfl⟩
      | text n t v => exact ⟨_, rfl⟩
      | number n t v => exact ⟨_, rfl⟩
      | date n t v => exact ⟨_, rfl⟩
      | dateTime n t v => exact ⟨_, rfl⟩
      | dateTimeSec n t v => exact ⟨_, rfl⟩
      | dateRange n t v => exact ⟨_, rfl⟩
      | dateTimeRange n t v => exact ⟨_, rfl⟩
      | dateTimeSecRange n t v => exact ⟨_, rfl⟩
    obtain ⟨q, hq⟩ := hp
    exact ⟨q :: qs, by simp [fromAPIParameters, hq, hqs]⟩

/-- C10 (witness): the totality and first-element assignment at a concrete
parameter list containing a single-valued enum, a single-valued query
parameter, and a multi-valued enum. -/
theorem C10_fromAPIObject_singleValued_witness :
    (∃ qs, fromAPIParameters
      [.enum "e" "" ["a"] "a\nb" none,
       .query "q" "" ["x", "y"] "123" none,
       .enum "m" "" ["a", "b"] "a\nb" (some { pfx := "", sfx := "", separator := "," }),
       .text "t" "" "hello"] = some qs) ∧
    fromAPIParameter (.enum "e" "" ["a"] "a\nb" none) =
      some { name := "e", title := "",
             enum := some { value := "a", values := [],
                            options := ["a", "b"], multiple := none } } := by
  have h := C10_fromAPIObject_singleValued
    [.enum "e" "" ["a"] "a\nb" none,
     .query "q" "" ["x", "y"] "123" none,
     .enum "m" "" ["a", "b"] "a\nb" (some { pfx := "", sfx := "", separator := "," }),
     .text "t" "" "hello"]
    (by intro p hp; fin_cases hp <;> rfl)
  refine ⟨h.1, ?_⟩
  have he := h.2.1 "e" "" "a" [] "a\nb"
  rw [he]
  rfl

/-! ## Schedule-variant mutual exclusion (ResourceQuery schema override)

The `ResourceQuery` override in the source iterates over the variant names
and appends `schedule.0.<other>` to each variant's `ConflictsWith` list.  The
validation that enforces those declarations lives in the orchestrator SDK,
outside this repository, and is modelled from the spec. -/

/-- The variant-name list `ns := []string{"continuous", "daily", "weekly"}`
from `ResourceQuery`. -/
def scheduleVariantNames : List String := ["continuous", "daily", "weekly"]

/-- The `ConflictsWith` list built for one variant by the nested loop in
`ResourceQuery`: every other variant's path `schedule.0.<n2>`, appended in
list order, skipping `n1` itself. -/
def conflictsWithOf (n1 : String) : List String :=
  scheduleVariantNames.foldl
    (fun acc n2 => if n1 = n2 then acc else acc ++ ["schedule.0." ++ n2]) []

/-- Modelled from the spec: the orchestrator-side ConflictsWith validation
(not in this repository).  A configuration has a conflict when some group
member is set with a non-empty value and one of its declared conflicting
paths names another member that is also set. -/
def conflictError (isSet : String → Bool) : Bool :=
  scheduleVariantNames.any fun n1 =>
    isSet n1 && (conflictsWithOf n1).any fun p =>
      scheduleVariantNames.any fun n2 => (p == "schedule.0." ++ n2) && isSet n2

/-- Modelled from the spec: validation runs at configuration-apply time,
before any network call.  The second component counts network calls: a
conflicting configuration fails with ConfigConflictError and performs zero
calls; a valid one proceeds to the remote call. -/
def applyScheduleConfig (isSet : String → Bool) : Except String Unit × Nat :=
  if conflictError isSet then (Except.error "ConfigConflictError", 0)
  else (Except.ok (), 1)

/-- The set-ness assignment for the three schedule variants. -/
def isSetOf (sc sd sw : Bool) : String → Bool := fun n =>
  if n = "continuous" then sc
  else if n = "daily" then sd
  else if n = "weekly" then sw
  else false

/-- Number of schedule variants set. -/
def setCount (sc sd sw : Bool) : Nat :=
  (cond sc 1 0) + (cond sd 1 0) + (cond sw 1 0)

/-- C3: with the ConflictsWith declarations built by `ResourceQuery` for the
group {continuous, daily, weekly}, any configuration setting two or more
variants simultaneously fails with ConfigConflictError and performs zero
network calls, while setting exactly one variant passes validation. -/
theorem C3_schedule_conflictsWith :
    ∀ sc sd sw : Bool,
      (2 ≤ setCount sc sd sw →
        applyScheduleConfig (isSetOf sc sd sw) = (Except.error "ConfigConflictError", 0)) ∧
      (setCount sc sd sw = 1 →
        applyScheduleConfig (isSetOf sc sd sw) = (Except.ok (), 1)) := by
  intro sc sd sw
  cases sc <;> cases sd <;> cases sw <;>
    exact ⟨fun h => by first | rfl | exact absurd h (by decide),
           fun h => by first | rfl | exact absurd h (by decide)⟩

/-- C3 (witness): daily+weekly set together conflict with zero network
calls; weekly alone passes. -/
theorem C3_schedule_conflictsWith_witness :
    applyScheduleConfig (isSetOf false true true) = (Except.error "ConfigConflictError", 0) ∧
    applyScheduleConfig (isSetOf false false true) = (Except.ok (), 1) :=
  ⟨(C3_schedule_conflictsWith false true true).1 (by decide),
   (C3_schedule_conflictsWith false false true).2 (by decide)⟩

/-! ## day_of_week enumerated validation (ResourceQuery schema override) -/

/-- The case-sensitive day-name list installed as the `day_of_week`
validator in `ResourceQuery`. -/
def dayOfWeekValidValues : List String :=
  ["Sunday", "Monday", "Tuesday", "Wednesday", "Thursday", "Friday", "Saturday"]

/-- Modelled from the spec: `validation.StringInSlice(valid, ignoreCase)`
compiles to a value-in-set validator; with `ignoreCase = false` (as in the
source) matching is exact. -/
def stringInSlice (valid : List String) (ignoreCase : Bool) (v : String) : Bool :=
  valid.any fun s => if ignoreCase then s.toLower == v.toLower else s == v

/-- Modelled from the spec: enum validation runs before any network call is
issued.  The second component counts network calls. -/
def applyDayOfWeek (v : String) : Except String Unit × Nat :=
  if stringInSlice dayOfWeekValidValues false v then (Except.ok (), 1)
  else (Except.error "ValidationError", 0)

/-- C8: the `day_of_week` field's declared value set compiles to a
value-in-set validator — a value among the seven case-sensitive English day
names passes, and any other value fails validation with zero network calls. -/
theorem C8_dayOfWeek_enum_validation (v : String) :
    (v ∈ dayOfWeekValidValues → applyDayOfWeek v = (Except.ok (), 1)) ∧
    (v ∉ dayOfWeekValidValues → applyDayOfWeek v = (Except.error "ValidationError", 0)) := by
  have key : stringInSlice dayOfWeekValidValues false v = true ↔ v ∈ dayOfWeekValidValues := by
    simp [stringInSlice]
  constructor
  · intro hv
    unfold applyDayOfWeek
    rw [if_pos (key.mpr hv)]
  · intro hv
    have hne : ¬ stringInSlice dayOfWeekValidValues false v = true := fun h => hv (key.mp h)
    unfold applyDayOfWeek
    rw [if_neg hne]

/-- C8 (witness): the exact name "Monday" passes; the lowercase "monday" is
outside the case-sensitive set and fails with zero network calls. -/
theorem C8_dayOfWeek_enum_validation_witness :
    applyDayOfWeek "Monday" = (Except.ok (), 1) ∧
    applyDayOfWeek "monday" = (Except.error "ValidationError", 0) :=
  ⟨(C8_dayOfWeek_enum_validation "Monday").1 (by decide),
   (C8_dayOfWeek_enum_validation "monday").2 (by decide)⟩

/-! ## Read / CRUD error handling

The Read wrappers asserted by TestIPACLRead_404, TestResourceClusterRead_NotFound,
TestResourceClusterRead_Error and TestIPACLRead_SERVERERROR live outside the
given sources (only their tests are present), so the handling is modelled
from the spec. -/

/-- `APIErrorBody` plus the HTTP status, as carried by the test fixtures. -/
structure APIError where
  errorCode : String
  message : String
  statusCode : Nat
deriving DecidableEq, Repr

/-- Modelled from the spec: a 404 on Read is the "resource absent" special
case (the fixtures hit it with codes RESOURCE_DOES_NOT_EXIST and NOT_FOUND,
both with HTTP status 404). -/
def APIError.isMissing (e : APIError) : Bool := e.statusCode == 404

/-- The slice of declarative state relevant to the error-handling claims: the
stored resource identifier. -/
structure ResourceState where
  id : String
deriving DecidableEq, Repr

/-- Modelled from the spec: the Read wrapper — a missing resource (404)
clears the identifier and reports no error; any other API error leaves the
identifier unchanged and surfaces the server message verbatim. -/
def handleReadResult (d : ResourceState) (result : Except APIError Unit) :
    ResourceState × Option String :=
  match result with
  | .ok _ => (d, none)
  | .error e => if e.isMissing then ({ id := "" }, none) else (d, some e.message)

/-- Modelled from the spec: Create/Update/Delete propagate every API error
(TestIPACLDelete_NONEXISTANT shows even a 404 on Delete is an error). -/
def handleMutationResult (d : ResourceState) (result : Except APIError Unit) :
    ResourceState × Option String :=
  match result with
  | .ok _ => (d, none)
  | .error e => (d, some e.message)

/-- C2: a Read whose remote call fails with a 404 API error returns no error
and clears the stored identifier. -/
theorem C2_read_404_clears_id (d : ResourceState) (e : APIError)
    (h : e.statusCode = 404) :
    handleReadResult d (.error e) = ({ id := "" }, none) := by
  simp [handleReadResult, APIError.isMissing, h]

/-- C2 (witness): the TestIPACLRead_404 fixture — RESOURCE_DOES_NOT_EXIST
with status 404 against stored id "234567". -/
theorem C2_read_404_clears_id_witness :
    handleReadResult { id := "234567" }
      (.error { errorCode := "RESOURCE_DOES_NOT_EXIST",
                message := "Cant find an IP access list with id: 234567.",
                statusCode := 404 }) = ({ id := "" }, none) :=
  C2_read_404_clears_id { id := "234567" } _ rfl

/-- C7: a non-404 API error propagates to the caller carrying the server
message verbatim and leaves the stored identifier unchanged, on Read as well
as on the mutating operations (which propagate every error). -/
theorem C7_non404_error_propagates :
    (∀ (d : ResourceState) (e : APIError), e.statusCode ≠ 404 →
      handleReadResult d (.error e) = (d, some e.message)) ∧
    (∀ (d : ResourceState) (e : APIError),
      handleMutationResult d (.error e) = (d, some e.message)) := by
  constructor
  · intro d e h
    simp [handleReadResult, APIError.isMissing, h]
  · intro d e
    rfl

/-- C7 (witness): the TestResourceClusterRead_Error fixture —
INVALID_REQUEST with status 400 leaves id "abc" and surfaces the message. -/
theorem C7_non404_error_propagates_witness :
    handleReadResult { id := "abc" }
      (.error { errorCode := "INVALID_REQUEST", message := "Internal error happened",
                statusCode := 400 }) =
      ({ id := "abc" }, some "Internal error happened") ∧
    handleMutationResult { id := "abc" }
      (.error { errorCode := "SERVER_ERROR", message := "Something unexpected happened",
                statusCode := 500 }) =
      ({ id := "abc" }, some "Something unexpected happened") :=
  ⟨C7_non404_error_propagates.1 { id := "abc" } _ (by decide),
   C7_non404_error_propagates.2 { id := "abc" } _⟩

/-! ## Azure authenticator

The `AzureAuth` implementation is outside the given sources (only
`azure_auth_test.go` is present), so `resourceID`, `isClientSecretSet`, the
workspace-URL cache and the strategy resolution are modelled from the spec,
with concrete formats pinned by the assertions in the test file. -/

/-- `AzureAuth` configuration fields used by resource-id derivation and
client-secret strategy detection; the Go zero value of every field is `""`. -/
structure AzureAuth where
  ResourceID : String := ""
  SubscriptionID : String := ""
  ResourceGroup : String := ""
  WorkspaceName : String := ""
  ClientID : String := ""
  ClientSecret : String := ""
  TenantID : String := ""
deriving DecidableEq, Repr

/-- Modelled from the spec: the resource identifier is taken directly when
supplied, otherwise derived by composing the subscription, resource-group
and workspace-name components (format pinned by TestAzureAuth_resourceID);
when neither is available the result is empty. -/
def AzureAuth.resourceID (aa : AzureAuth) : String :=
  if aa.ResourceID ≠ "" then aa.ResourceID
  else if aa.SubscriptionID = "" ∨ aa.ResourceGroup = "" ∨ aa.WorkspaceName = "" then ""
  else "/subscriptions/" ++ aa.SubscriptionID ++ "/resourceGroups/" ++ aa.ResourceGroup ++
       "/providers/Microsoft.Databricks/workspaces/" ++ aa.WorkspaceName

/-- Modelled from the spec: the cloud-managed-identity exchange fails with
ConfigurationError if neither the direct identifier nor all three components
are present; it never proceeds with an empty identifier. -/
def AzureAuth.resolveWorkspaceResourceID (aa : AzureAuth) : Except String String :=
  if aa.resourceID = "" then .error "ConfigurationError" else .ok aa.resourceID

/-- The composed identifier is never empty: it starts with `/subscriptions/`. -/
theorem composed_resourceID_ne_empty (a b c : String) :
    "/subscriptions/" ++ a ++ "/resourceGroups/" ++ b ++
      "/providers/Microsoft.Databricks/workspaces/" ++ c ≠ "" := by
  intro h
  have hlen := congrArg String.length h
  have h14 : ("/subscriptions/" : String).length = 15 := by decide
  have hrg : ("/resourceGroups/" : String).length = 16 := by decide
  have hpw : ("/providers/Microsoft.Databricks/workspaces/" : String).length = 43 := by decide
  have hz : ("" : String).length = 0 := by decide
  simp only [String.length_append] at hlen
  omega

/-- C4: the cloud-managed-identity resource identifier is taken directly
when supplied; otherwise it is composed from subscription, resource group
and workspace name; and when neither the direct identifier nor all three
components are present, configuration fails with ConfigurationError rather
than proceeding with an empty identifier. -/
theorem C4_azure_resourceID_resolution (aa : AzureAuth) :
    (aa.ResourceID ≠ "" → aa.resolveWorkspaceResourceID = .ok aa.ResourceID) ∧
    (aa.ResourceID = "" → aa.SubscriptionID ≠ "" → aa.ResourceGroup ≠ "" →
      aa.WorkspaceName ≠ "" →
      aa.resolveWorkspaceResourceID =
        .ok ("/subscriptions/" ++ aa.SubscriptionID ++ "/resourceGroups/" ++
             aa.ResourceGroup ++ "/providers/Microsoft.Databricks/workspaces/" ++
             aa.WorkspaceName)) ∧
    (aa.ResourceID = "" →
      (aa.SubscriptionID = "" ∨ aa.ResourceGroup = "" ∨ aa.WorkspaceName = "") →
      aa.resolveWorkspaceResourceID = .error "ConfigurationError") := by
  refine ⟨?_, ?_, ?_⟩
  · intro h
    simp [AzureAuth.resolveWorkspaceResourceID, AzureAuth.resourceID, h]
  · intro h hs hr hw
    have hid : aa.resourceID =
        "/subscriptions/" ++ aa.SubscriptionID ++ "/resourceGroups/" ++
          aa.ResourceGroup ++ "/providers/Microsoft.Databricks/workspaces/" ++
          aa.WorkspaceName := by
      simp [AzureAuth.resourceID, h, hs, hr, hw]
    unfold AzureAuth.resolveWorkspaceResourceID
    rw [hid, if_neg (composed_resourceID_ne_empty _ _ _)]
  · intro h hmiss
    have hid : aa.resourceID = "" := by
      simp [AzureAuth.resourceID, h, hmiss]
    unfold AzureAuth.resolveWorkspaceResourceID
    rw [hid, if_pos rfl]

/-- C4 (witness): the three cases at the TestAzureAuth_resourceID inputs —
a direct identifier, the composed a/b/c identifier, and a configuration with
only subscription and resource group, which fails. -/
theorem C4_azure_resourceID_resolution_witness :
    AzureAuth.resolveWorkspaceResourceID { ResourceID := "/foo/bar" } = .ok "/foo/bar" ∧
    AzureAuth.resolveWorkspaceResourceID
        { SubscriptionID := "a", ResourceGroup := "b", WorkspaceName := "c" } =
      .ok "/subscriptions/a/resourceGroups/b/providers/Microsoft.Databricks/workspaces/c" ∧
    AzureAuth.resolveWorkspaceResourceID { SubscriptionID := "a", ResourceGroup := "b" } =
      .error "ConfigurationError" :=
  ⟨(C4_azure_resourceID_resolution _).1 (by decide),
   (C4_azure_resourceID_resolution _).2.1 rfl (by decide) (by decide) (by decide),
   (C4_azure_resourceID_resolution _).2.2 rfl (Or.inr (Or.inr rfl))⟩

/-- Workspace-URL cache slice of the azure authenticator state; the Go zero
value `""` means "not yet resolved". -/
structure AzureAuthState where
  workspaceURL : String := ""
deriving DecidableEq, Repr

/-- Modelled from the spec: `ensureWorkspaceURL` calls the Azure Management
endpoint only when the workspace URL is not cached, then caches the result;
the second component counts network calls ("Calls to Azure Management API
must be done only once" in TestAzureAuth_ensureWorkspaceURL). -/
def ensureWorkspaceURL (st : AzureAuthState) (remoteURL : String) :
    AzureAuthState × Nat :=
  if st.workspaceURL ≠ "" then (st, 0)
  else ({ workspaceURL := remoteURL }, 1)

/-- C5: once a first successful resolution has populated the cache, a second
`ensureWorkspaceURL` call performs zero additional network calls and leaves
the state unchanged — one management call in total. -/
theorem C5_workspaceURL_cached (remote : String) (h : remote ≠ "") :
    ensureWorkspaceURL { workspaceURL := "" } remote = ({ workspaceURL := remote }, 1) ∧
    ensureWorkspaceURL { workspaceURL := remote } remote = ({ workspaceURL := remote }, 0) := by
  constructor
  · simp [ensureWorkspaceURL]
  · simp [ensureWorkspaceURL, h]

/-- C5 (witness): both calls at a concrete workspace URL. -/
theorem C5_workspaceURL_cached_witness :
    ensureWorkspaceURL { workspaceURL := "" } "adb-1.azuredatabricks.net" =
      ({ workspaceURL := "adb-1.azuredatabricks.net" }, 1) ∧
    ensureWorkspaceURL { workspaceURL := "adb-1.azuredatabricks.net" }
        "adb-1.azuredatabricks.net" =
      ({ workspaceURL := "adb-1.azuredatabricks.net" }, 0) :=
  C5_workspaceURL_cached "adb-1.azuredatabricks.net" (by decide)

/-- Modelled from the spec: `isClientSecretSet` — the client-secret strategy
counts as configured only when client ID, client secret and tenant ID are
all non-empty (TestAzureAuth_isClientSecretSet). -/
def AzureAuth.isClientSecretSet (aa : AzureAuth) : Bool :=
  aa.ClientID != "" && aa.ClientSecret != "" && aa.TenantID != ""

/-- The credential strategies, in spec resolution order. -/
inductive CredentialStrategy where
  | staticToken
  | basicAuth
  | azureClientSecret
  | noneConfigured
deriving DecidableEq, Repr

/-- Client-level credential configuration across strategies. -/
structure ClientConfig where
  token : String := ""
  username : String := ""
  password : String := ""
  azure : AzureAuth := {}
deriving DecidableEq, Repr

/-- Modelled from the spec: resolution order — explicit static token, then
username/password basic auth, then the cloud-managed-identity exchange; the
first fully-configured strategy wins. -/
def resolveStrategy (c : ClientConfig) : CredentialStrategy :=
  if c.token != "" then .staticToken
  else if c.username != "" && c.password != "" then .basicAuth
  else if c.azure.isClientSecretSet then .azureClientSecret
  else .noneConfigured

/-- C9: the client-secret strategy is considered set exactly when client ID,
client secret and tenant ID are all non-empty; with only a strict subset
present it is treated as not configured and does not win resolution. -/
theorem C9_clientSecret_fully_configured (aa : AzureAuth) :
    (aa.isClientSecretSet = true ↔
      aa.ClientID ≠ "" ∧ aa.ClientSecret ≠ "" ∧ aa.TenantID ≠ "") ∧
    (∀ c : ClientConfig, c.azure = aa → c.token = "" → c.username = "" →
      (aa.ClientID = "" ∨ aa.ClientSecret = "" ∨ aa.TenantID = "") →
      resolveStrategy c = .noneConfigured) := by
  constructor
  · simp [AzureAuth.isClientSecretSet, and_assoc]
  · intro c hca ht hu hmiss
    have hnotset : aa.isClientSecretSet = false := by
      rcases hmiss with h | h | h <;> simp [AzureAuth.isClientSecretSet, h]
    simp [resolveStrategy, hca, ht, hu, hnotset]

/-- C9 (witness): the TestAzureAuth_isClientSecretSet inputs — all three set
is configured; client ID and secret without tenant ID loses resolution. -/
theorem C9_clientSecret_fully_configured_witness :
    AzureAuth.isClientSecretSet { ClientID := "a", ClientSecret := "b", TenantID := "c" } = true ∧
    resolveStrategy { azure := { ClientID := "a", ClientSecret := "b" } } = .noneConfigured :=
  ⟨(C9_clientSecret_fully_configured _).1.mpr ⟨by decide, by decide, by decide⟩,
   (C9_clientSecret_fully_configured { ClientID := "a", ClientSecret := "b" }).2 _
     rfl rfl rfl (Or.inr (Or.inr rfl))⟩

end Databricks
